import Mathlib

/-!
Shallow embedding of the medicine-finder repository (Express façade in
`server.js`, tool implementations in `med_tool.js`).

Upstream HTTP and model calls are modelled by passing their outcomes as
explicit `Except String _` parameters: `.error msg` is a thrown/rejected
call (axios transport error, generation failure) carrying the JavaScript
error message, `.ok v` is a resolved call whose parsed JSON body is `v`.
Optional-chaining accesses such as `response.data.drugGroup?.conceptGroup`
are collapsed into a single `Option` field holding the chained value.
JavaScript truthiness on object-valued expressions is `Option.isSome`;
`a || b` on object operands is `jsOr`.
-/

namespace MedicineFinder

/-- One entry of a `conceptProperties` array in an RxNav response. -/
structure ConceptProperty where
  rxcui : String
  name : String
deriving DecidableEq, Repr

/-- One `conceptGroup` entry: a term-type tag and an optional array of
concept properties (`none` models the field being absent/undefined). -/
structure ConceptGroup where
  tty : String
  conceptProperties : Option (List ConceptProperty)
deriving DecidableEq, Repr

/-- The value of `response.data.drugGroup?.conceptGroup` for the
name-search endpoint (`none` when the optional chain is undefined). -/
structure DrugsResponse where
  conceptGroup : Option (List ConceptGroup)
deriving DecidableEq, Repr

/-- The value of `response.data.allRelatedGroup?.conceptGroup` for the
all-related endpoint (`none` when the optional chain is undefined). -/
structure RelatedResponse where
  conceptGroup : Option (List ConceptGroup)
deriving DecidableEq, Repr

/-- JavaScript `a || b` on object-valued operands: the left value when it
is defined, otherwise the right one. -/
def jsOr {α : Type} (a b : Option α) : Option α :=
  match a with
  | some x => some x
  | none => b

/-- JavaScript `s.includes(sub)`: the character sequence of `sub` occurs
contiguously inside that of `s`. -/
def strIncludes (s sub : String) : Bool :=
  decide (sub.toList <:+: s.toList)

/-! ## HTTP façade (`server.js`, `app.post("/api/search")`) -/

/-- The JSON body shapes the `/api/search` handler can send. -/
inductive ResponseBody where
  /-- `{error: msg}` from the BadRequest branch. -/
  | errorOnly (error : String)
  /-- `{success: true, result}` from the normal branch. -/
  | resultBody (result : String)
  /-- `{success: false, error: msg}` from the catch branch. -/
  | failureBody (error : String)
deriving DecidableEq, Repr

/-- JavaScript falsiness of `req.body.query`: the field being absent or
the empty string. -/
def jsFalsyStr (q : Option String) : Bool :=
  match q with
  | none => true
  | some s => s == ""

/-- The `/api/search` handler of `server.js`: given the request body's
`query` field and the outcome of `main(query)`, returns the HTTP status,
the JSON body, and whether `main` was invoked. -/
def handleApiSearch (query : Option String) (mainOutcome : Except String String) :
    (Nat × ResponseBody) × Bool :=
  if jsFalsyStr query then
    ((400, .errorOnly "Query is required"), false)
  else
    match mainOutcome with
    | .ok r => ((200, .resultBody r), true)
    | .error _ => ((500, .failureBody "Failed to process your request. Please try again."), true)

/-! ## Tool `search_medicine` (`med_tool.js` lines 73–122) -/

/-- The helper `getTypeDescription` of `med_tool.js`. -/
def getTypeDescription (tty : String) : String :=
  if tty == "SCD" then "Generic Drug (Recommended - Same quality, lower cost)"
  else if tty == "SBD" then "Branded Drug (More expensive)"
  else if tty == "BN" then "Brand Name"
  else if tty == "IN" then "Active Ingredient"
  else if tty == "MIN" then "Multiple Ingredients"
  else if tty == "DF" then "Dosage Form"
  else if tty == "SCDC" then "Generic Drug Component"
  else if tty == "SBDC" then "Branded Drug Component"
  else tty

/-- One entry pushed onto `results` in `search_medicine`. -/
structure ResultEntry where
  rxcui : String
  name : String
  type : String
  typeDescription : String
deriving DecidableEq, Repr

/-- The nested `for` loops of `search_medicine`: every concept of every
group with a present `conceptProperties` array, in group-then-concept
iteration order. -/
def collectResults (groups : List ConceptGroup) : List ResultEntry :=
  groups.flatMap fun g =>
    (g.conceptProperties.getD []).map fun d =>
      { rxcui := d.rxcui, name := d.name, type := g.tty,
        typeDescription := getTypeDescription g.tty }

/-- The JSON values `search_medicine` can return (it always returns a
stringified object, never throws). -/
inductive SearchMedicineResult where
  /-- `{success: false, message, suggestion}` when no concept group came back. -/
  | notFound (message suggestion : String)
  /-- `{success: true, searchTerm, results, totalFound}`. -/
  | found (searchTerm : String) (results : List ResultEntry) (totalFound : Nat)
  /-- `{success: false, error}` from the catch branch. -/
  | caught (error : String)
deriving DecidableEq, Repr

/-- `search_medicine`'s `execute`, parameterized by the outcome of the
name-search request. -/
def searchMedicine (medicineName : String) (outcome : Except String DrugsResponse) :
    SearchMedicineResult :=
  match outcome with
  | .error e => .caught e
  | .ok resp =>
    match resp.conceptGroup with
    | none =>
        .notFound
          ("Could not find medicine \"" ++ medicineName ++
            "\". Please check the spelling or try the generic name.")
          "Common generic names: Paracetamol=Acetaminophen, Ibuprofen, Aspirin, Metformin, Omeprazole"
    | some groups =>
        .found medicineName ((collectResults groups).take 10) (collectResults groups).length

/-! ## Tool `get_available_dosages` (`med_tool.js` lines 304–353) -/

/-- One entry pushed onto `genericDosages`. -/
structure DosageEntry where
  name : String
  rxcui : String
deriving DecidableEq, Repr

/-- The collection loop of `get_available_dosages`: concepts of `SCD`
groups whose names do not contain the combination separator. -/
def collectGenericDosages (groups : List ConceptGroup) : List DosageEntry :=
  groups.flatMap fun g =>
    if g.tty == "SCD" then
      ((g.conceptProperties.getD []).filter fun d => !(strIncludes d.name " / ")).map
        fun d => { name := d.name, rxcui := d.rxcui }
    else []

/-- The JSON values `get_available_dosages` can return. -/
inductive DosagesResult where
  /-- `{success: false, message}` when no concept group came back. -/
  | notFound (message : String)
  /-- `{success: true, ingredient, availableGenericFormulations, note}`. -/
  | found (ingredient : String) (availableGenericFormulations : List DosageEntry) (note : String)
  /-- `{success: false, error}` from the catch branch. -/
  | caught (error : String)
deriving DecidableEq, Repr

/-- `get_available_dosages`'s `execute`, parameterized by the outcome of
the name-search request. -/
def getAvailableDosages (ingredientName : String) (outcome : Except String DrugsResponse) :
    DosagesResult :=
  match outcome with
  | .error e => .caught e
  | .ok resp =>
    match resp.conceptGroup with
    | none => .notFound ("Could not find dosages for \"" ++ ingredientName ++ "\".")
    | some groups =>
        .found ingredientName (collectGenericDosages groups)
          "These are pure generic formulations without combination drugs. Ask your doctor which dosage is right for you."

/-! ## Tool `find_generic_with_prices` (`med_tool.js` lines 371–509) -/

/-- The three local variables of the step-1 scan over the name-search
concept groups (`genericDrug`, `brandedDrug`, `ingredient`). -/
structure ScanState where
  genericDrug : Option ConceptProperty
  brandedDrug : Option ConceptProperty
  ingredient : Option ConceptProperty
deriving DecidableEq, Repr

/-- One iteration of the step-1 scan (lines 397–409): groups without a
`conceptProperties` field are skipped; otherwise each still-unset variable
of a matching term type is assigned `conceptProperties[0]` (which is
`none` again when the array is empty, leaving the variable falsy). -/
def scanStep (s : ScanState) (g : ConceptGroup) : ScanState :=
  match g.conceptProperties with
  | none => s
  | some ps =>
    let s1 := if g.tty == "SCD" && s.genericDrug.isNone then
        { s with genericDrug := ps.head? } else s
    let s2 := if g.tty == "SBD" && s1.brandedDrug.isNone then
        { s1 with brandedDrug := ps.head? } else s1
    if g.tty == "IN" && s2.ingredient.isNone then
        { s2 with ingredient := ps.head? } else s2

/-- The whole step-1 scan loop. -/
def scanLoop (s : ScanState) (groups : List ConceptGroup) : ScanState :=
  groups.foldl scanStep s

/-- The step-1 scan started from all-unset variables. -/
def scanDrugGroups (groups : List ConceptGroup) : ScanState :=
  scanLoop ⟨none, none, none⟩ groups

/-- The first concept (`conceptProperties[0]`) of the first group of term
type `tty` that has a first concept — the first-seen concept of that type
in upstream iteration order. -/
def firstOfTty (tty : String) (groups : List ConceptGroup) : Option ConceptProperty :=
  (groups.filterMap fun g =>
    if g.tty == tty then g.conceptProperties.bind List.head? else none).head?

/-- The `conceptProperties` array of the last group of term type `tty`
that carries one. -/
def lastOfTty (tty : String) (groups : List ConceptGroup) : Option (List ConceptProperty) :=
  (groups.filterMap fun g =>
    if g.tty == tty then g.conceptProperties else none).getLast?

/-- The `apiResult` object built from the all-related response
(lines 418–423). -/
structure ApiResult where
  genericName : Option String
  brandNames : List String
  activeIngredient : Option String
  dosageForm : Option String
deriving DecidableEq, Repr

/-- The fresh `apiResult` of line 418. -/
def initApiResult : ApiResult :=
  { genericName := none, brandNames := [], activeIngredient := none, dosageForm := none }

/-- One iteration of the loop over the all-related concept groups
(lines 425–440). Groups without `conceptProperties` are skipped; a group
of type IN/SCD/DF overwrites its field with `conceptProperties[0].name`,
which throws a TypeError (modelled as `none`, caught by the surrounding
`try`) when the array is empty; a BN group overwrites `brandNames` with
the names of its first five concepts. No first-seen guard exists here:
later groups of the same type overwrite earlier ones. -/
def relatedStep (r : ApiResult) (g : ConceptGroup) : Option ApiResult :=
  match g.conceptProperties with
  | none => some r
  | some ps =>
    if g.tty == "IN" then ps.head?.map fun p => { r with activeIngredient := some p.name }
    else if g.tty == "SCD" then ps.head?.map fun p => { r with genericName := some p.name }
    else if g.tty == "BN" then some { r with brandNames := (ps.take 5).map fun p => p.name }
    else if g.tty == "DF" then ps.head?.map fun p => { r with dosageForm := some p.name }
    else some r

/-- The whole loop over the all-related concept groups; `none` when a
TypeError aborts it. -/
def relatedLoop (r : ApiResult) : List ConceptGroup → Option ApiResult
  | [] => some r
  | g :: gs =>
    match relatedStep r g with
    | none => none
    | some r2 => relatedLoop r2 gs

/-- The identifier the second (all-related) request is issued for:
`(genericDrug || brandedDrug).rxcui`, guarded by
`if (genericDrug || brandedDrug)`. `some` exactly when the second request
is issued. -/
def secondRequestTarget (searchOutcome : Except String DrugsResponse) : Option String :=
  match searchOutcome with
  | .error _ => none
  | .ok resp =>
    match resp.conceptGroup with
    | none => none
    | some groups =>
      let s := scanDrugGroups groups
      (jsOr s.genericDrug s.brandedDrug).map fun p => p.rxcui

/-- The value `result.apiData` holds when step 1 finishes: `none` unless
the scan found a formulation, the second request succeeded, its response
carried concept groups, and the derivation loop ran without throwing. -/
def step1ApiData (searchOutcome : Except String DrugsResponse)
    (relatedOutcome : Except String RelatedResponse) : Option ApiResult :=
  match secondRequestTarget searchOutcome with
  | none => none
  | some _ =>
    match relatedOutcome with
    | .error _ => none
    | .ok rresp =>
      match rresp.conceptGroup with
      | none => none
      | some rgroups => relatedLoop initApiResult rgroups

/-- The `web` field of a grounding chunk. -/
structure WebInfo where
  title : String
  uri : String
deriving DecidableEq, Repr

/-- One grounding chunk; `web` is absent on non-web chunks. -/
structure GroundingChunk where
  web : Option WebInfo
deriving DecidableEq, Repr

/-- The `groundingMetadata` object of the provider metadata. -/
structure GroundingMetadata where
  groundingChunks : Option (List GroundingChunk)
  webSearchQueries : Option (List String)
deriving DecidableEq, Repr

/-- The result of the `generateText` call: the free text and the value of
the optional chain `providerMetadata?.google?.groundingMetadata`. -/
structure GenTextResult where
  text : String
  groundingMetadata : Option GroundingMetadata
deriving DecidableEq, Repr

/-- One extracted citation `{title, url}`. -/
structure SourceEntry where
  title : String
  url : String
deriving DecidableEq, Repr

/-- Citation extraction (lines 481–487):
`groundingChunks.filter(c => c.web).slice(0, 5).map(c => ({title: c.web.title, url: c.web.uri}))`.
Filtering on the presence of `web` and then projecting through it is
written as one `filterMap`. -/
def extractSources (chunks : List GroundingChunk) : List SourceEntry :=
  ((chunks.filterMap fun c => c.web).take 5).map fun w => { title := w.title, url := w.uri }

/-- Modelled from the spec: the cited web chunks, in their original
order, mapped to title and url, capped at five entries. -/
def sourcesSpecList (chunks : List GroundingChunk) : List SourceEntry :=
  ((chunks.filterMap fun c => c.web).map fun w =>
    ({ title := w.title, url := w.uri } : SourceEntry)).take 5

/-- The `result.indianPrices` success object (lines 490–494). -/
structure PriceData where
  data : String
  sources : List SourceEntry
  searchQueries : List String
deriving DecidableEq, Repr

/-- The possible values of `result.indianPrices` once step 2 has run. -/
inductive IndianPrices where
  /-- `{data, sources, searchQueries}`. -/
  | priced (p : PriceData)
  /-- `{error: message}` from the catch branch of step 2. -/
  | errorMarker (error : String)
deriving DecidableEq, Repr

/-- The static tip string of the returned payload (line 506). -/
def janAushadhiTip : String :=
  "Jan Aushadhi Kendras offer the cheapest generic medicines. Find stores at janaushadhi.gov.in or call 1800-180-8080"

/-- The JSON payload `find_generic_with_prices` returns (lines 501–507).
`indianPrices` is an `Option` because the local `result` object
initializes it to `null` before step 2 runs. -/
structure Payload where
  success : Bool
  medicine : String
  apiData : Option ApiResult
  indianPrices : Option IndianPrices
  tip : String
deriving DecidableEq, Repr

/-- `find_generic_with_prices`'s `execute`, parameterized by the outcomes
of the three upstream calls (name search, all-related lookup, grounded
generation). The all-related outcome is only consulted when the second
request is issued. -/
def findGenericWithPrices (medicineName : String)
    (searchOutcome : Except String DrugsResponse)
    (relatedOutcome : Except String RelatedResponse)
    (priceOutcome : Except String GenTextResult) : Payload :=
  let apiData := step1ApiData searchOutcome relatedOutcome
  let indianPrices : Option IndianPrices :=
    match priceOutcome with
    | .ok g =>
      let sources :=
        match g.groundingMetadata.bind fun m => m.groundingChunks with
        | some chunks => extractSources chunks
        | none => []
      some (.priced
        { data := g.text, sources := sources,
          searchQueries := (g.groundingMetadata.bind fun m => m.webSearchQueries).getD [] })
    | .error msg => some (.errorMarker msg)
  { success := true, medicine := medicineName, apiData := apiData,
    indianPrices := indianPrices, tip := janAushadhiTip }

/-! ## Characterization lemmas for the scan over the name-search groups -/

theorem jsOr_none_right {A : Type} (a : Option A) : jsOr a none = a := by
  cases a <;> rfl

theorem scanStep_genericDrug (s : ScanState) (g : ConceptGroup) :
    (scanStep s g).genericDrug =
      match g.conceptProperties with
      | none => s.genericDrug
      | some ps => if g.tty == "SCD" && s.genericDrug.isNone then ps.head? else s.genericDrug := by
  unfold scanStep
  cases g.conceptProperties with
  | none => rfl
  | some ps =>
    dsimp only
    split_ifs <;> rfl

theorem scanStep_brandedDrug (s : ScanState) (g : ConceptGroup) :
    (scanStep s g).brandedDrug =
      match g.conceptProperties with
      | none => s.brandedDrug
      | some ps => if g.tty == "SBD" && s.brandedDrug.isNone then ps.head? else s.brandedDrug := by
  unfold scanStep
  cases g.conceptProperties with
  | none => rfl
  | some ps =>
    dsimp only
    split_ifs <;> rfl

theorem scanStep_ingredient (s : ScanState) (g : ConceptGroup) :
    (scanStep s g).ingredient =
      match g.conceptProperties with
      | none => s.ingredient
      | some ps => if g.tty == "IN" && s.ingredient.isNone then ps.head? else s.ingredient := by
  unfold scanStep
  cases g.conceptProperties with
  | none => rfl
  | some ps =>
    dsimp only
    split_ifs <;> rfl

theorem scanLoop_genericDrug (gs : List ConceptGroup) : ∀ s : ScanState,
    (scanLoop s gs).genericDrug = jsOr s.genericDrug (firstOfTty "SCD" gs) := by
  induction gs with
  | nil =>
    intro s
    simp only [scanLoop, List.foldl_nil, firstOfTty, List.filterMap_nil, List.head?_nil,
      jsOr_none_right]
  | cons g gs ih =>
    intro s
    rw [scanLoop, List.foldl_cons]
    have ih2 := ih (scanStep s g)
    rw [scanLoop] at ih2
    rw [ih2, scanStep_genericDrug]
    unfold firstOfTty
    rw [List.filterMap_cons]
    cases hc : g.conceptProperties with
    | none =>
      have hnone : (if g.tty == "SCD" then (none : Option (List ConceptProperty)).bind List.head?
          else none) = none := by
        split <;> rfl
      rw [hnone]
    | some ps =>
      by_cases ht : (g.tty == "SCD") = true
      · rw [if_pos ht, Option.some_bind]
        cases hs : s.genericDrug with
        | some v => cases hp : ps.head? <;> simp [jsOr]
        | none => cases hp : ps.head? <;> simp [jsOr, hp, beq_iff_eq.mp ht]
      · rw [if_neg ht]
        have hb : (g.tty == "SCD" && s.genericDrug.isNone) = false := by
          simp [Bool.eq_false_iff.mpr ht]
        rw [hb]
        simp

theorem scanLoop_brandedDrug (gs : List ConceptGroup) : ∀ s : ScanState,
    (scanLoop s gs).brandedDrug = jsOr s.brandedDrug (firstOfTty "SBD" gs) := by
  induction gs with
  | nil =>
    intro s
    simp only [scanLoop, List.foldl_nil, firstOfTty, List.filterMap_nil, List.head?_nil,
      jsOr_none_right]
  | cons g gs ih =>
    intro s
    rw [scanLoop, List.foldl_cons]
    have ih2 := ih (scanStep s g)
    rw [scanLoop] at ih2
    rw [ih2, scanStep_brandedDrug]
    unfold firstOfTty
    rw [List.filterMap_cons]
    cases hc : g.conceptProperties with
    | none =>
      have hnone : (if g.tty == "SBD" then (none : Option (List ConceptProperty)).bind List.head?
          else none) = none := by
        split <;> rfl
      rw [hnone]
    | some ps =>
      by_cases ht : (g.tty == "SBD") = true
      · rw [if_pos ht, Option.some_bind]
        cases hs : s.brandedDrug with
        | some v => cases hp : ps.head? <;> simp [jsOr]
        | none => cases hp : ps.head? <;> simp [jsOr, hp, beq_iff_eq.mp ht]
      · rw [if_neg ht]
        have hb : (g.tty == "SBD" && s.brandedDrug.isNone) = false := by
          simp [Bool.eq_false_iff.mpr ht]
        rw [hb]
        simp

theorem scanLoop_ingredient (gs : List ConceptGroup) : ∀ s : ScanState,
    (scanLoop s gs).ingredient = jsOr s.ingredient (firstOfTty "IN" gs) := by
  induction gs with
  | nil =>
    intro s
    simp only [scanLoop, List.foldl_nil, firstOfTty, List.filterMap_nil, List.head?_nil,
      jsOr_none_right]
  | cons g gs ih =>
    intro s
    rw [scanLoop, List.foldl_cons]
    have ih2 := ih (scanStep s g)
    rw [scanLoop] at ih2
    rw [ih2, scanStep_ingredient]
    unfold firstOfTty
    rw [List.filterMap_cons]
    cases hc : g.conceptProperties with
    | none =>
      have hnone : (if g.tty == "IN" then (none : Option (List ConceptProperty)).bind List.head?
          else none) = none := by
        split <;> rfl
      rw [hnone]
    | some ps =>
      by_cases ht : (g.tty == "IN") = true
      · rw [if_pos ht, Option.some_bind]
        cases hs : s.ingredient with
        | some v => cases hp : ps.head? <;> simp [jsOr]
        | none => cases hp : ps.head? <;> simp [jsOr, hp, beq_iff_eq.mp ht]
      · rw [if_neg ht]
        have hb : (g.tty == "IN" && s.ingredient.isNone) = false := by
          simp [Bool.eq_false_iff.mpr ht]
        rw [hb]
        simp

/-! ## Characterization lemmas for the all-related derivation loop -/

theorem lastOfTty_cons (t : String) (g : ConceptGroup) (gs : List ConceptGroup) :
    lastOfTty t (g :: gs) =
      match (if g.tty == t then g.conceptProperties else none) with
      | none => lastOfTty t gs
      | some ps => some ((lastOfTty t gs).getD ps) := by
  unfold lastOfTty
  rw [List.filterMap_cons]
  cases hfg : (if g.tty == t then g.conceptProperties else none) with
  | none => rfl
  | some ps =>
    dsimp only
    rw [List.getLast?_cons]

theorem lastOfTty_cons_skip (t : String) (g : ConceptGroup) (gs : List ConceptGroup)
    (h : (if g.tty == t then g.conceptProperties else none) = none) :
    lastOfTty t (g :: gs) = lastOfTty t gs := by
  rw [lastOfTty_cons, h]

theorem relatedLoop_fields (gs : List ConceptGroup) : ∀ r a : ApiResult,
    relatedLoop r gs = some a →
      a.activeIngredient = (lastOfTty "IN" gs).elim r.activeIngredient
          (fun ps => ps.head?.map fun p => p.name)
    ∧ a.genericName = (lastOfTty "SCD" gs).elim r.genericName
          (fun ps => ps.head?.map fun p => p.name)
    ∧ a.brandNames = (lastOfTty "BN" gs).elim r.brandNames
          (fun ps => (ps.take 5).map fun p => p.name)
    ∧ a.dosageForm = (lastOfTty "DF" gs).elim r.dosageForm
          (fun ps => ps.head?.map fun p => p.name) := by
  induction gs with
  | nil =>
    intro r a h
    simp only [relatedLoop, Option.some.injEq] at h
    subst h
    simp [lastOfTty, List.filterMap_nil]
  | cons g gs ih =>
    intro r a h
    rw [relatedLoop] at h
    cases hstep : relatedStep r g with
    | none => rw [hstep] at h; exact absurd h (by simp)
    | some r2 =>
      rw [hstep] at h
      dsimp only at h
      have ihr := ih r2 a h
      unfold relatedStep at hstep
      cases hc : g.conceptProperties with
      | none =>
        rw [hc] at hstep
        dsimp only at hstep
        have hr2 : r2 = r := by injection hstep with h2; exact h2.symm
        subst hr2
        have hskip : ∀ t : String, (if g.tty == t then g.conceptProperties else none) = none := by
          intro t; rw [hc]; split <;> rfl
        rw [lastOfTty_cons_skip _ _ _ (hskip "IN"), lastOfTty_cons_skip _ _ _ (hskip "SCD"),
          lastOfTty_cons_skip _ _ _ (hskip "BN"), lastOfTty_cons_skip _ _ _ (hskip "DF")]
        exact ihr
      | some ps =>
        rw [hc] at hstep
        dsimp only at hstep
        have hskipOf : ∀ u : String, (g.tty == u) = false →
            (if g.tty == u then g.conceptProperties else none) = none := by
          intro u hu; rw [hu]; rfl
        by_cases ht1 : (g.tty == "IN") = true
        · have htt : g.tty = "IN" := beq_iff_eq.mp ht1
          rw [if_pos ht1] at hstep
          cases hp : ps.head? with
          | none => rw [hp] at hstep; exact absurd hstep (by simp)
          | some p =>
            rw [hp] at hstep
            have hr2 : r2 = { r with activeIngredient := some p.name } := by
              simpa using hstep.symm
            subst hr2
            have hne : ∀ u : String, u ≠ "IN" → (g.tty == u) = false := by
              intro u hu
              rw [htt]
              exact beq_eq_false_iff_ne.mpr fun hcontra => hu hcontra.symm
            rw [lastOfTty_cons_skip _ _ _ (hskipOf "SCD" (hne "SCD" (by decide))),
              lastOfTty_cons_skip _ _ _ (hskipOf "BN" (hne "BN" (by decide))),
              lastOfTty_cons_skip _ _ _ (hskipOf "DF" (hne "DF" (by decide)))]
            have hin : lastOfTty "IN" (g :: gs) = some ((lastOfTty "IN" gs).getD ps) := by
              rw [lastOfTty_cons, htt, hc]; rfl
            rw [hin]
            refine ⟨?_, ihr.2.1, ihr.2.2.1, ihr.2.2.2⟩
            cases hL : lastOfTty "IN" gs with
            | none => have h1 := ihr.1; rw [hL] at h1; simpa [hp] using h1
            | some psl => have h1 := ihr.1; rw [hL] at h1; simpa using h1
        · by_cases ht2 : (g.tty == "SCD") = true
          · have htt : g.tty = "SCD" := beq_iff_eq.mp ht2
            rw [if_neg ht1, if_pos ht2] at hstep
            cases hp : ps.head? with
            | none => rw [hp] at hstep; exact absurd hstep (by simp)
            | some p =>
              rw [hp] at hstep
              have hr2 : r2 = { r with genericName := some p.name } := by
                simpa using hstep.symm
              subst hr2
              have hne : ∀ u : String, u ≠ "SCD" → (g.tty == u) = false := by
                intro u hu
                rw [htt]
                exact beq_eq_false_iff_ne.mpr fun hcontra => hu hcontra.symm
              rw [lastOfTty_cons_skip _ _ _ (hskipOf "IN" (hne "IN" (by decide))),
                lastOfTty_cons_skip _ _ _ (hskipOf "BN" (hne "BN" (by decide))),
                lastOfTty_cons_skip _ _ _ (hskipOf "DF" (hne "DF" (by decide)))]
              have hscd : lastOfTty "SCD" (g :: gs) = some ((lastOfTty "SCD" gs).getD ps) := by
                rw [lastOfTty_cons, htt, hc]; rfl
              rw [hscd]
              refine ⟨ihr.1, ?_, ihr.2.2.1, ihr.2.2.2⟩
              cases hL : lastOfTty "SCD" gs with
              | none => have h1 := ihr.2.1; rw [hL] at h1; simpa [hp] using h1
              | some psl => have h1 := ihr.2.1; rw [hL] at h1; simpa using h1
          · by_cases ht3 : (g.tty == "BN") = true
            · have htt : g.tty = "BN" := beq_iff_eq.mp ht3
              rw [if_neg ht1, if_neg ht2, if_pos ht3] at hstep
              have hr2 : r2 = { r with brandNames := (ps.take 5).map fun p => p.name } := by
                simpa using hstep.symm
              subst hr2
              have hne : ∀ u : String, u ≠ "BN" → (g.tty == u) = false := by
                intro u hu
                rw [htt]
                exact beq_eq_false_iff_ne.mpr fun hcontra => hu hcontra.symm
              rw [lastOfTty_cons_skip _ _ _ (hskipOf "IN" (hne "IN" (by decide))),
                lastOfTty_cons_skip _ _ _ (hskipOf "SCD" (hne "SCD" (by decide))),
                lastOfTty_cons_skip _ _ _ (hskipOf "DF" (hne "DF" (by decide)))]
              have hbn : lastOfTty "BN" (g :: gs) = some ((lastOfTty "BN" gs).getD ps) := by
                rw [lastOfTty_cons, htt, hc]; rfl
              rw [hbn]
              refine ⟨ihr.1, ihr.2.1, ?_, ihr.2.2.2⟩
              cases hL : lastOfTty "BN" gs with
              | none => have h1 := ihr.2.2.1; rw [hL] at h1; simpa using h1
              | some psl => have h1 := ihr.2.2.1; rw [hL] at h1; simpa using h1
            · by_cases ht4 : (g.tty == "DF") = true
              · have htt : g.tty = "DF" := beq_iff_eq.mp ht4
                rw [if_neg ht1, if_neg ht2, if_neg ht3, if_pos ht4] at hstep
                cases hp : ps.head? with
                | none => rw [hp] at hstep; exact absurd hstep (by simp)
                | some p =>
                  rw [hp] at hstep
                  have hr2 : r2 = { r with dosageForm := some p.name } := by
                    simpa using hstep.symm
                  subst hr2
                  have hne : ∀ u : String, u ≠ "DF" → (g.tty == u) = false := by
                    intro u hu
                    rw [htt]
                    exact beq_eq_false_iff_ne.mpr fun hcontra => hu hcontra.symm
                  rw [lastOfTty_cons_skip _ _ _ (hskipOf "IN" (hne "IN" (by decide))),
                    lastOfTty_cons_skip _ _ _ (hskipOf "SCD" (hne "SCD" (by decide))),
                    lastOfTty_cons_skip _ _ _ (hskipOf "BN" (hne "BN" (by decide)))]
                  have hdf : lastOfTty "DF" (g :: gs) = some ((lastOfTty "DF" gs).getD ps) := by
                    rw [lastOfTty_cons, htt, hc]; rfl
                  rw [hdf]
                  refine ⟨ihr.1, ihr.2.1, ihr.2.2.1, ?_⟩
                  cases hL : lastOfTty "DF" gs with
                  | none => have h1 := ihr.2.2.2; rw [hL] at h1; simpa [hp] using h1
                  | some psl => have h1 := ihr.2.2.2; rw [hL] at h1; simpa using h1
              · rw [if_neg ht1, if_neg ht2, if_neg ht3, if_neg ht4] at hstep
                have hr2 : r2 = r := by injection hstep with h2; exact h2.symm
                subst hr2
                rw [lastOfTty_cons_skip _ _ _ (hskipOf "IN" (Bool.eq_false_iff.mpr ht1)),
                  lastOfTty_cons_skip _ _ _ (hskipOf "SCD" (Bool.eq_false_iff.mpr ht2)),
                  lastOfTty_cons_skip _ _ _ (hskipOf "BN" (Bool.eq_false_iff.mpr ht3)),
                  lastOfTty_cons_skip _ _ _ (hskipOf "DF" (Bool.eq_false_iff.mpr ht4))]
                exact ihr

theorem mem_of_getLast?_eq {A : Type} {l : List A} {a : A} (h : l.getLast? = some a) :
    a ∈ l := by
  rcases List.mem_getLast?_eq_getLast (Option.mem_def.mpr h) with ⟨hne, heq⟩
  exact heq ▸ List.getLast_mem hne

theorem mem_of_head?_eq {A : Type} {l : List A} {a : A} (h : l.head? = some a) : a ∈ l := by
  cases l with
  | nil => exact absurd h (by simp)
  | cons x xs =>
    simp only [List.head?_cons, Option.some.injEq] at h
    exact h ▸ List.mem_cons_self x xs

/-- A properties array reported by `lastOfTty` really belongs to a group
of that term type in the list. -/
theorem lastOfTty_mem {t : String} {gs : List ConceptGroup} {ps : List ConceptProperty}
    (h : lastOfTty t gs = some ps) :
    ∃ g ∈ gs, g.tty = t ∧ g.conceptProperties = some ps := by
  unfold lastOfTty at h
  have hmem := mem_of_getLast?_eq h
  rcases List.mem_filterMap.mp hmem with ⟨g, hg, hf⟩
  by_cases ht : (g.tty == t) = true
  · exact ⟨g, hg, beq_iff_eq.mp ht, by rwa [if_pos ht] at hf⟩
  · rw [if_neg ht] at hf
    exact absurd hf (by simp)

/-- `firstOfTty` finds a concept exactly when some group of that term
type carries a nonempty properties array. -/
theorem firstOfTty_isSome_iff {t : String} {gs : List ConceptGroup} :
    (firstOfTty t gs).isSome = true ↔
      ∃ g ∈ gs, g.tty = t ∧ ∃ ps p, g.conceptProperties = some ps ∧ ps.head? = some p := by
  unfold firstOfTty
  constructor
  · intro h
    rcases Option.isSome_iff_exists.mp h with ⟨p, hp⟩
    have hpm := mem_of_head?_eq hp
    rcases List.mem_filterMap.mp hpm with ⟨g, hg, hf⟩
    by_cases ht : (g.tty == t) = true
    · rw [if_pos ht] at hf
      cases hc : g.conceptProperties with
      | none => rw [hc] at hf; exact absurd hf (by simp)
      | some ps =>
        rw [hc, Option.some_bind] at hf
        exact ⟨g, hg, beq_iff_eq.mp ht, ps, p, hc, hf⟩
    · rw [if_neg ht] at hf
      exact absurd hf (by simp)
  · rintro ⟨g, hg, ht, ps, p, hc, hp⟩
    have hmem : p ∈ gs.filterMap fun g =>
        if g.tty == t then g.conceptProperties.bind List.head? else none := by
      refine List.mem_filterMap.mpr ⟨g, hg, ?_⟩
      rw [if_pos (beq_iff_eq.mpr ht), hc, Option.some_bind, hp]
    rw [List.head?_isSome]
    exact List.ne_nil_of_mem hmem

/-- The step-1 scan variables are exactly the first-seen concepts per
term type. -/
theorem scanDrugGroups_fields (groups : List ConceptGroup) :
    (scanDrugGroups groups).genericDrug = firstOfTty "SCD" groups
    ∧ (scanDrugGroups groups).brandedDrug = firstOfTty "SBD" groups
    ∧ (scanDrugGroups groups).ingredient = firstOfTty "IN" groups :=
  ⟨scanLoop_genericDrug groups ⟨none, none, none⟩,
    scanLoop_brandedDrug groups ⟨none, none, none⟩,
    scanLoop_ingredient groups ⟨none, none, none⟩⟩

/-- The identifier of the second request, written through `firstOfTty`. -/
theorem secondRequestTarget_eq (groups : List ConceptGroup) :
    secondRequestTarget (.ok ⟨some groups⟩)
      = (jsOr (firstOfTty "SCD" groups) (firstOfTty "SBD" groups)).map fun p => p.rxcui := by
  unfold secondRequestTarget
  dsimp only
  rw [(scanDrugGroups_fields groups).1, (scanDrugGroups_fields groups).2.1]

/-- When step 1 produced an `apiResult`, the derivation loop on the
all-related groups ran to completion on it. -/
theorem step1ApiData_eq_some {so : Except String DrugsResponse}
    {rgroups : List ConceptGroup} {a : ApiResult}
    (h : step1ApiData so (.ok ⟨some rgroups⟩) = some a) :
    relatedLoop initApiResult rgroups = some a := by
  unfold step1ApiData at h
  cases htgt : secondRequestTarget so with
  | none => rw [htgt] at h; exact absurd h (by simp)
  | some t => rw [htgt] at h; exact h

/-! ## Claims -/

/-- Claim C1: in `find_generic_with_prices`, the vocabulary step and the
price step are independent: for every outcome of the upstream calls, a
vocabulary failure leaves `indianPrices` non-null (a price result or an
error marker, unchanged from what the price outcome alone determines),
a price failure leaves `apiData` exactly what the vocabulary step
produced, and neither failure aborts the call (the payload is still
returned with `success = true`). -/
theorem claim_C1 (name e : String) (so : Except String DrugsResponse)
    (ro : Except String RelatedResponse) (po : Except String GenTextResult) :
    ((findGenericWithPrices name (.error e) ro po).indianPrices).isSome = true
    ∧ (findGenericWithPrices name (.error e) ro po).indianPrices
        = (findGenericWithPrices name so ro po).indianPrices
    ∧ (findGenericWithPrices name so ro (.error e)).apiData = step1ApiData so ro
    ∧ (findGenericWithPrices name so ro (.error e)).apiData
        = (findGenericWithPrices name so ro po).apiData
    ∧ (findGenericWithPrices name (.error e) ro (.error e)).success = true := by
  refine ⟨?_, rfl, rfl, rfl, rfl⟩
  cases po <;> rfl

/-- Claim C2: the `/api/search` handler answers 400 with
`{error: "Query is required"}` and never invokes `main` when the query
is missing or empty, and invokes `main` whenever the query is a
non-empty string. -/
theorem claim_C2 (mo : Except String String) (q : String) (hq : q ≠ "") :
    handleApiSearch none mo = ((400, .errorOnly "Query is required"), false)
    ∧ handleApiSearch (some "") mo = ((400, .errorOnly "Query is required"), false)
    ∧ (handleApiSearch (some q) mo).2 = true := by
  refine ⟨rfl, rfl, ?_⟩
  have hfalse : jsFalsyStr (some q) = false := beq_eq_false_iff_ne.mpr hq
  unfold handleApiSearch
  rw [hfalse]
  cases mo <;> rfl

theorem claim_C2_witness :
    ("Crocin" : String) ≠ "" ∧ (handleApiSearch (some "Crocin") (.ok "r")).2 = true :=
  ⟨by decide, (claim_C2 (.ok "r") "Crocin" (by decide)).2.2⟩

/-- Claim C3 fails as stated: a vocabulary transport failure inside
`find_generic_with_prices` is caught but its message is not carried into
the returned payload — two different underlying messages produce the
identical payload, which holds no field for them at all. -/
theorem claim_C3_counterexample :
    findGenericWithPrices "x" (.error "E1") (.ok ⟨none⟩) (.error "Ep")
      = findGenericWithPrices "x" (.error "E2") (.ok ⟨none⟩) (.error "Ep")
    ∧ findGenericWithPrices "x" (.error "E1") (.ok ⟨none⟩) (.error "Ep")
      = { success := true, medicine := "x", apiData := none,
          indianPrices := some (.errorMarker "Ep"), tip := janAushadhiTip }
    ∧ ("E1" : String) ≠ "E2" :=
  ⟨rfl, rfl, by decide⟩

/-- Claim C3 as amended: every external-dependency failure is caught at
the point of call and a result is still returned to the caller (never a
thrown exception); `search_medicine` failures and grounding failures are
converted to result markers carrying the underlying message, while a
vocabulary failure inside `find_generic_with_prices` is absorbed with
`apiData` degraded to null and its message discarded. -/
theorem claim_C3_amended (name e : String) (so : Except String DrugsResponse)
    (ro : Except String RelatedResponse) (po : Except String GenTextResult) :
    searchMedicine name (.error e) = .caught e
    ∧ (findGenericWithPrices name so ro (.error e)).indianPrices = some (.errorMarker e)
    ∧ (findGenericWithPrices name (.error e) ro po).apiData = none
    ∧ (findGenericWithPrices name (.error e) ro po).success = true :=
  ⟨rfl, rfl, rfl, rfl⟩

/-- Claim C6: a name search that yields no concept groups makes
`search_medicine` return a NotFound result whose suggestion string lists
common name mappings and is non-empty; the embedding returns a value for
every outcome, never an exception. -/
theorem claim_C6 (name : String) :
    searchMedicine name (.ok ⟨none⟩)
      = .notFound
          ("Could not find medicine \"" ++ name ++
            "\". Please check the spelling or try the generic name.")
          "Common generic names: Paracetamol=Acetaminophen, Ibuprofen, Aspirin, Metformin, Omeprazole"
    ∧ ("Common generic names: Paracetamol=Acetaminophen, Ibuprofen, Aspirin, Metformin, Omeprazole"
        : String) ≠ "" :=
  ⟨rfl, by decide⟩

/-- Claim C8: `find_generic_with_prices` always reports top-level
success and always includes the static Jan Aushadhi tip, even when both
upstream steps fail; a vocabulary-lookup error message is discarded
entirely — `apiData` is null and the payload is identical for any two
vocabulary error messages. -/
theorem claim_C8 (name e e2 : String) (so : Except String DrugsResponse)
    (ro : Except String RelatedResponse) (po : Except String GenTextResult) :
    (findGenericWithPrices name so ro po).success = true
    ∧ (findGenericWithPrices name so ro po).tip = janAushadhiTip
    ∧ (findGenericWithPrices name (.error e) ro po).apiData = none
    ∧ findGenericWithPrices name (.error e) ro po = findGenericWithPrices name (.error e2) ro po :=
  ⟨rfl, rfl, rfl, rfl⟩

/-- Claim C4: the second (all-related) request of
`find_generic_with_prices` is issued exactly when the name search
yielded an SCD or SBD concept, targeting the generic concept's
identifier when one was found and the branded one otherwise; the derived
`apiData` carries at most five brand names taken only from BN groups, an
active ingredient that is the first concept name of an IN group, a
generic name from an SCD group and a dosage form from a DF group of the
related response; with no formulation concept `apiData` stays null. -/
theorem claim_C4 (groups rgroups : List ConceptGroup) (ro : Except String RelatedResponse)
    (a : ApiResult) (e : String) :
    ((secondRequestTarget (.ok ⟨some groups⟩)).isSome
        = ((firstOfTty "SCD" groups).isSome || (firstOfTty "SBD" groups).isSome))
    ∧ (∀ p, firstOfTty "SCD" groups = some p →
        secondRequestTarget (.ok ⟨some groups⟩) = some p.rxcui)
    ∧ (firstOfTty "SCD" groups = none → ∀ p, firstOfTty "SBD" groups = some p →
        secondRequestTarget (.ok ⟨some groups⟩) = some p.rxcui)
    ∧ secondRequestTarget (.error e) = none
    ∧ secondRequestTarget (.ok ⟨none⟩) = none
    ∧ (firstOfTty "SCD" groups = none → firstOfTty "SBD" groups = none →
        step1ApiData (.ok ⟨some groups⟩) ro = none)
    ∧ (step1ApiData (.ok ⟨some groups⟩) (.ok ⟨some rgroups⟩) = some a →
        a.brandNames.length ≤ 5
        ∧ (∀ n ∈ a.brandNames, ∃ g ∈ rgroups, g.tty = "BN"
            ∧ ∃ ps, g.conceptProperties = some ps ∧ ∃ p ∈ ps, p.name = n)
        ∧ (∀ x, a.activeIngredient = some x → ∃ g ∈ rgroups, g.tty = "IN"
            ∧ ∃ ps p, g.conceptProperties = some ps ∧ ps.head? = some p ∧ p.name = x)
        ∧ (∀ x, a.genericName = some x → ∃ g ∈ rgroups, g.tty = "SCD"
            ∧ ∃ ps p, g.conceptProperties = some ps ∧ ps.head? = some p ∧ p.name = x)
        ∧ (∀ x, a.dosageForm = some x → ∃ g ∈ rgroups, g.tty = "DF"
            ∧ ∃ ps p, g.conceptProperties = some ps ∧ ps.head? = some p ∧ p.name = x)) := by
  refine ⟨?_, ?_, ?_, rfl, rfl, ?_, ?_⟩
  · rw [secondRequestTarget_eq]
    cases firstOfTty "SCD" groups <;> cases firstOfTty "SBD" groups <;> simp [jsOr]
  · intro p hp
    rw [secondRequestTarget_eq, hp]
    rfl
  · intro hnone p hp
    rw [secondRequestTarget_eq, hnone, hp]
    rfl
  · intro h1 h2
    unfold step1ApiData
    rw [secondRequestTarget_eq, h1, h2]
    rfl
  · intro h
    have hloop := step1ApiData_eq_some h
    have hf := relatedLoop_fields rgroups initApiResult a hloop
    refine ⟨?_, ?_, ?_, ?_, ?_⟩
    · rcases hf.2.2.1 with hbn
      cases hL : lastOfTty "BN" rgroups with
      | none => rw [hL] at hbn; simp [initApiResult] at hbn; simp [hbn]
      | some ps =>
        rw [hL] at hbn
        simp only [Option.elim] at hbn
        rw [hbn]
        simp [List.length_map, List.length_take]
    · intro n hn
      rcases hf.2.2.1 with hbn
      cases hL : lastOfTty "BN" rgroups with
      | none =>
        rw [hL] at hbn
        simp [initApiResult] at hbn
        rw [hbn] at hn
        exact absurd hn (by simp)
      | some ps =>
        rw [hL] at hbn
        simp only [Option.elim] at hbn
        rw [hbn] at hn
        rcases List.mem_map.mp hn with ⟨p, hpmem, hpn⟩
        rcases lastOfTty_mem hL with ⟨g, hg, ht, hc⟩
        exact ⟨g, hg, ht, ps, hc, p, List.take_subset 5 ps hpmem, hpn⟩
    · intro x hx
      rcases hf.1 with hai
      cases hL : lastOfTty "IN" rgroups with
      | none =>
        rw [hL] at hai
        simp [initApiResult] at hai
        rw [hai] at hx
        exact absurd hx (by simp)
      | some ps =>
        rw [hL] at hai
        simp only [Option.elim] at hai
        rw [hai] at hx
        rcases Option.map_eq_some'.mp hx with ⟨p, hp, hpn⟩
        rcases lastOfTty_mem hL with ⟨g, hg, ht, hc⟩
        exact ⟨g, hg, ht, ps, p, hc, hp, hpn⟩
    · intro x hx
      rcases hf.2.1 with hgn
      cases hL : lastOfTty "SCD" rgroups with
      | none =>
        rw [hL] at hgn
        simp [initApiResult] at hgn
        rw [hgn] at hx
        exact absurd hx (by simp)
      | some ps =>
        rw [hL] at hgn
        simp only [Option.elim] at hgn
        rw [hgn] at hx
        rcases Option.map_eq_some'.mp hx with ⟨p, hp, hpn⟩
        rcases lastOfTty_mem hL with ⟨g, hg, ht, hc⟩
        exact ⟨g, hg, ht, ps, p, hc, hp, hpn⟩
    · intro x hx
      rcases hf.2.2.2 with hdf
      cases hL : lastOfTty "DF" rgroups with
      | none =>
        rw [hL] at hdf
        simp [initApiResult] at hdf
        rw [hdf] at hx
        exact absurd hx (by simp)
      | some ps =>
        rw [hL] at hdf
        simp only [Option.elim] at hdf
        rw [hdf] at hx
        rcases Option.map_eq_some'.mp hx with ⟨p, hp, hpn⟩
        rcases lastOfTty_mem hL with ⟨g, hg, ht, hc⟩
        exact ⟨g, hg, ht, ps, p, hc, hp, hpn⟩

theorem claim_C4_witness :
    step1ApiData (.ok ⟨some [⟨"SBD", some [⟨"sb1", "BrandTab"⟩]⟩]⟩)
        (.ok ⟨some [⟨"IN", some [⟨"i1", "acetaminophen"⟩]⟩, ⟨"BN", some [⟨"b1", "Tylenol"⟩]⟩]⟩)
      = some { genericName := none, brandNames := ["Tylenol"],
               activeIngredient := some "acetaminophen", dosageForm := none }
    ∧ (["Tylenol"] : List String).length ≤ 5 :=
  ⟨rfl, ((claim_C4 [⟨"SBD", some [⟨"sb1", "BrandTab"⟩]⟩]
      [⟨"IN", some [⟨"i1", "acetaminophen"⟩]⟩, ⟨"BN", some [⟨"b1", "Tylenol"⟩]⟩]
      (.ok ⟨some [⟨"IN", some [⟨"i1", "acetaminophen"⟩]⟩, ⟨"BN", some [⟨"b1", "Tylenol"⟩]⟩]⟩)
      { genericName := none, brandNames := ["Tylenol"],
        activeIngredient := some "acetaminophen", dosageForm := none }
      "e").2.2.2.2.2.2 rfl).1⟩

/-- Claim C5 fails as stated for the related-concepts derivation: with
two IN groups the derived active ingredient comes from the second
(last) group's first concept, not from the first concept seen for the
type. -/
theorem claim_C5_counterexample :
    step1ApiData (.ok ⟨some [⟨"SCD", some [⟨"9", "drug"⟩]⟩]⟩)
        (.ok ⟨some [⟨"IN", some [⟨"1", "A"⟩]⟩, ⟨"IN", some [⟨"2", "B"⟩]⟩]⟩)
      = some { genericName := none, brandNames := [], activeIngredient := some "B",
               dosageForm := none }
    ∧ firstOfTty "IN" [⟨"IN", some [⟨"1", "A"⟩]⟩, ⟨"IN", some [⟨"2", "B"⟩]⟩]
        = some ⟨"1", "A"⟩
    ∧ ("B" : String) ≠ "A" :=
  ⟨rfl, rfl, by decide⟩

/-- Claim C5 as amended: the name-search scan is first-seen-wins (each
selected concept is the first concept of the first group of its type
that has one), but the related-concepts derivation is last-group-wins:
each field of the derived `apiData` comes from the last group of its
type — its first concept for IN/SCD/DF, its first five concepts for
BN. -/
theorem claim_C5_amended (groups rgroups : List ConceptGroup) (a : ApiResult) :
    ((scanDrugGroups groups).genericDrug = firstOfTty "SCD" groups
      ∧ (scanDrugGroups groups).brandedDrug = firstOfTty "SBD" groups
      ∧ (scanDrugGroups groups).ingredient = firstOfTty "IN" groups)
    ∧ (relatedLoop initApiResult rgroups = some a →
        a.activeIngredient
            = (lastOfTty "IN" rgroups).elim none (fun ps => ps.head?.map fun p => p.name)
        ∧ a.genericName
            = (lastOfTty "SCD" rgroups).elim none (fun ps => ps.head?.map fun p => p.name)
        ∧ a.brandNames
            = (lastOfTty "BN" rgroups).elim [] (fun ps => (ps.take 5).map fun p => p.name)
        ∧ a.dosageForm
            = (lastOfTty "DF" rgroups).elim none (fun ps => ps.head?.map fun p => p.name)) := by
  refine ⟨scanDrugGroups_fields groups, fun h => ?_⟩
  have hf := relatedLoop_fields rgroups initApiResult a h
  exact ⟨hf.1, hf.2.1, hf.2.2.1, hf.2.2.2⟩

theorem claim_C5_amended_witness :
    relatedLoop initApiResult [⟨"DF", some [⟨"1", "Tablet"⟩]⟩, ⟨"DF", some [⟨"2", "Syrup"⟩]⟩]
      = some { genericName := none, brandNames := [], activeIngredient := none,
               dosageForm := some "Syrup" }
    ∧ ({ genericName := none, brandNames := [], activeIngredient := none,
          dosageForm := some "Syrup" } : ApiResult).dosageForm
        = (lastOfTty "DF" [⟨"DF", some [⟨"1", "Tablet"⟩]⟩, ⟨"DF", some [⟨"2", "Syrup"⟩]⟩]).elim
            none (fun ps => ps.head?.map fun p => p.name) :=
  ⟨rfl, ((claim_C5_amended []
      [⟨"DF", some [⟨"1", "Tablet"⟩]⟩, ⟨"DF", some [⟨"2", "Syrup"⟩]⟩]
      { genericName := none, brandNames := [], activeIngredient := none,
        dosageForm := some "Syrup" }).2 rfl).2.2.2⟩

/-- Claim C7: citation extraction is a deterministic function of the
grounding chunks: it yields exactly the chunks that have a web field, in
their original order, mapped to title/url and capped at five entries,
and equal metadata always yields the identical ordered list. -/
theorem claim_C7 (chunks chunks2 : List GroundingChunk) :
    extractSources chunks = sourcesSpecList chunks
    ∧ (extractSources chunks).length ≤ 5
    ∧ (∀ s ∈ extractSources chunks, ∃ c ∈ chunks, ∃ w, c.web = some w
        ∧ s = { title := w.title, url := w.uri })
    ∧ (chunks = chunks2 → extractSources chunks = extractSources chunks2) := by
  refine ⟨?_, ?_, ?_, fun h => h ▸ rfl⟩
  · unfold extractSources sourcesSpecList
    rw [List.map_take]
  · unfold extractSources
    simp [List.length_map, List.length_take]
  · intro s hs
    unfold extractSources at hs
    rcases List.mem_map.mp hs with ⟨w, hwmem, hws⟩
    have hw2 : w ∈ chunks.filterMap fun c => c.web := List.take_subset 5 _ hwmem
    rcases List.mem_filterMap.mp hw2 with ⟨c, hc, hcw⟩
    exact ⟨c, hc, w, hcw, hws.symm⟩

theorem claim_C7_witness :
    (⟨"t", "u"⟩ : SourceEntry) ∈ extractSources [⟨some ⟨"t", "u"⟩⟩]
    ∧ ∃ c ∈ [(⟨some ⟨"t", "u"⟩⟩ : GroundingChunk)], ∃ w, c.web = some w
        ∧ (⟨"t", "u"⟩ : SourceEntry) = { title := w.title, url := w.uri } :=
  ⟨by decide, (claim_C7 [⟨some ⟨"t", "u"⟩⟩] []).2.2.1 ⟨"t", "u"⟩ (by decide)⟩

/-- Claim C9: on a successful name search, `search_medicine` returns at
most ten entries — a prefix of the full group-then-concept iteration
order — while `totalFound` reports the full concept count, which can
exceed the returned list's length. -/
theorem claim_C9 (name : String) (groups : List ConceptGroup) :
    (∃ entries total, searchMedicine name (.ok ⟨some groups⟩) = .found name entries total
      ∧ entries.length ≤ 10
      ∧ entries = (collectResults groups).take 10
      ∧ entries <+: collectResults groups
      ∧ total = (collectResults groups).length
      ∧ entries.length ≤ total)
    ∧ (∃ gs2 entries2 total2, searchMedicine name (.ok ⟨some gs2⟩) = .found name entries2 total2
        ∧ entries2.length < total2) := by
  constructor
  · refine ⟨(collectResults groups).take 10, (collectResults groups).length, rfl, ?_, rfl,
      List.take_prefix 10 (collectResults groups), rfl, ?_⟩
    · simp [List.length_take]
    · simp [List.length_take]
  · refine ⟨[⟨"IN", some [⟨"1", "a"⟩, ⟨"2", "a"⟩, ⟨"3", "a"⟩, ⟨"4", "a"⟩, ⟨"5", "a"⟩, ⟨"6", "a"⟩,
      ⟨"7", "a"⟩, ⟨"8", "a"⟩, ⟨"9", "a"⟩, ⟨"10", "a"⟩, ⟨"11", "a"⟩]⟩],
      _, _, rfl, ?_⟩
    decide

/-- Claim C10: every entry of the `availableGenericFormulations` list
returned by `get_available_dosages` comes from an SCD group's concepts
and is not a combination drug — its name does not contain the
separator; no other group type contributes. -/
theorem claim_C10 (name : String) (groups : List ConceptGroup) (fs : List DosageEntry)
    (note : String) (h : getAvailableDosages name (.ok ⟨some groups⟩) = .found name fs note)
    (d : DosageEntry) (hd : d ∈ fs) :
    strIncludes d.name " / " = false
    ∧ ∃ g ∈ groups, g.tty = "SCD" ∧ ∃ ps, g.conceptProperties = some ps
        ∧ ∃ p ∈ ps, p.name = d.name ∧ p.rxcui = d.rxcui := by
  have hfs : fs = collectGenericDosages groups := by
    unfold getAvailableDosages at h
    dsimp only at h
    rcases h with ⟨⟩
    rfl
  subst hfs
  unfold collectGenericDosages at hd
  rcases List.mem_flatMap.mp hd with ⟨g, hg, hdg⟩
  by_cases ht : (g.tty == "SCD") = true
  · rw [if_pos ht] at hdg
    rcases List.mem_map.mp hdg with ⟨p, hpmem, hpd⟩
    rcases List.mem_filter.mp hpmem with ⟨hpin, hpcond⟩
    cases hc : g.conceptProperties with
    | none => rw [hc] at hpin; exact absurd hpin (by simp)
    | some ps =>
      rw [hc] at hpin
      have hname : p.name = d.name := by rw [← hpd]
      have hrx : p.rxcui = d.rxcui := by rw [← hpd]
      constructor
      · rw [← hname]
        simpa using hpcond
      · exact ⟨g, hg, beq_iff_eq.mp ht, ps, hc, p, (by simpa using hpin), hname, hrx⟩
  · rw [if_neg ht] at hdg
    exact absurd hdg (by simp)

theorem claim_C10_witness :
    strIncludes "Amoxicillin 500 MG Oral Tablet" " / " = false
    ∧ ∃ g ∈ [(⟨"SCD", some [⟨"r1", "Amoxicillin 500 MG Oral Tablet"⟩, ⟨"r2", "A / B"⟩]⟩
          : ConceptGroup)],
        g.tty = "SCD" ∧ ∃ ps, g.conceptProperties = some ps
        ∧ ∃ p ∈ ps, p.name = "Amoxicillin 500 MG Oral Tablet" ∧ p.rxcui = "r1" :=
  claim_C10 "amoxicillin"
    [⟨"SCD", some [⟨"r1", "Amoxicillin 500 MG Oral Tablet"⟩, ⟨"r2", "A / B"⟩]⟩]
    [⟨"Amoxicillin 500 MG Oral Tablet", "r1"⟩]
    "These are pure generic formulations without combination drugs. Ask your doctor which dosage is right for you."
    rfl ⟨"Amoxicillin 500 MG Oral Tablet", "r1"⟩ (by decide)

end MedicineFinder
